import Mathlib

/-!
Verification of `src/components/LiquidityDepth/DensityChart.tsx`.

The file embeds the component's pure logic shallowly:

* JavaScript `number` values that this file merely passes around, compares
  with `> 0` / truthiness, or renders, are modelled as `ℚ`; the component
  performs no float arithmetic of its own.
* `parseFloat` is an external runtime primitive; the embedding takes it as
  an explicit function parameter `pf : String → ℚ` wherever the source
  calls it.
* JSBI big integers holding liquidity are modelled as `ℕ` (liquidity
  amounts are unsigned); `JSBI.greaterThan` is `>` and `.toString()` is
  decimal rendering, as in Lean's `toString` on `ℕ`.
* React state (`formattedData`, `priceAtActiveTick`, `maxLiquidity`) is a
  record threaded through the effects; `undefined` is `Option.none`.
* The JSX tree is modelled as a `RenderOutput` value recording which
  branch renders and the props the claims are about.
-/

/-- One element of the `tickData` array consumed by `formatData`
(the shape of `TickProcessed` used by this component: a tick index,
an accumulated active liquidity big integer, and two price strings). -/
structure TickProcessed where
  tickIdx : ℤ
  liquidityActive : ℕ
  price0 : String
  price1 : String
deriving DecidableEq

/-- The `ChartEntry` interface of the source file. -/
structure ChartEntry where
  index : ℕ
  isCurrent : Bool
  activeLiquidity : ℚ
  price0 : ℚ
  price1 : ℚ
deriving DecidableEq

/-- An element of the hard-coded `sampleData` array
(a `Partial<ChartEntry>` carrying only `price0` and `activeLiquidity`). -/
structure SampleEntry where
  price0 : ℚ
  activeLiquidity : ℚ
deriving DecidableEq

/-- The hard-coded `sampleData` series of the source file. -/
def sampleData : List SampleEntry :=
  [ { price0 := 0, activeLiquidity := 1 }
  , { price0 := 1, activeLiquidity := 2 }
  , { price0 := 2, activeLiquidity := 3 }
  , { price0 := 3, activeLiquidity := 6 }
  , { price0 := 4, activeLiquidity := 5 }
  , { price0 := 5, activeLiquidity := 3 }
  , { price0 := 6, activeLiquidity := 2 } ]

/-- The three pieces of React state held by `useDensityChartData`:
`formattedData` (initially `undefined`), `priceAtActiveTick` (initially
`undefined`) and `maxLiquidity` (initially `0`). -/
structure HookState where
  formattedData : Option (List ChartEntry)
  priceAtActiveTick : Option ℚ
  maxLiquidity : ℚ
deriving DecidableEq

/-- Decimal digits of `n`, most significant first; the first argument is
structural fuel (any value `≥` the digit count works, `n + 1` always
does), so the definition reduces inside the kernel. -/
def decimalDigitsAux : ℕ → ℕ → List Char
  | 0, _ => []
  | fuel + 1, n =>
    if n < 10 then [Nat.digitChar n]
    else decimalDigitsAux fuel (n / 10) ++ [Nat.digitChar (n % 10)]

/-- Decimal string of a natural number (the `.toString()` of a
nonnegative JSBI big integer). -/
def natDecimalString (n : ℕ) : String :=
  String.mk (decimalDigitsAux (n + 1) n)

/-- The `for` loop inside `formatData`: walks `tickData` with index `i`,
accumulating `newData` (the pushed chart entries), the running JSBI
`maxLiquidity`, and the value `setPriceAtActiveTick` was last called with
(`pAT`, seeded with the previous state so that no active tick leaves it
unchanged).  `active` is `t.tickIdx === activeTick`, false whenever
`activeTick` is `undefined`. -/
def formatDataLoop (pf : String → ℚ) (activeTick : Option ℤ) :
    ℕ → List TickProcessed → ℕ → Option ℚ → List ChartEntry × ℕ × Option ℚ
  | _, [], maxLiq, pAT => ([], maxLiq, pAT)
  | i, t :: rest, maxLiq, pAT =>
    let active : Bool := decide (some t.tickIdx = activeTick)
    let maxLiq2 : ℕ := if t.liquidityActive > maxLiq then t.liquidityActive else maxLiq
    let entry : ChartEntry :=
      { index := i
        isCurrent := active
        activeLiquidity := pf (natDecimalString t.liquidityActive)
        price0 := pf t.price0
        price1 := pf t.price1 }
    let pAT2 : Option ℚ := if active then some entry.price0 else pAT
    let r := formatDataLoop pf activeTick (i + 1) rest maxLiq2 pAT2
    (entry :: r.1, r.2)

/-- The `formatData` closure of the second `useEffect`: returns early when
`tickData` is `undefined` or empty, otherwise runs the loop from index `0`
with the JSBI accumulator at `0`, then applies `setMaxLiquidity`
(`parseFloat` of the accumulator's decimal string), the last
`setPriceAtActiveTick`, and `setFormattedData newData`. -/
def formatData (pf : String → ℚ) (activeTick : Option ℤ)
    (tickData : Option (List TickProcessed)) (s : HookState) : HookState :=
  match tickData with
  | none => s
  | some td =>
    if td.isEmpty then s
    else
      let r := formatDataLoop pf activeTick 0 td 0 s.priceAtActiveTick
      { formattedData := some r.1
        maxLiquidity := pf (natDecimalString r.2.1)
        priceAtActiveTick := r.2.2 }

/-- The body of the second `useEffect`: `if (!loading) { formatData() }`. -/
def tickDataEffect (loading : Bool) (pf : String → ℚ) (activeTick : Option ℤ)
    (tickData : Option (List TickProcessed)) (s : HookState) : HookState :=
  if loading then s else formatData pf activeTick tickData s

/-- The first `useEffect` ("clear data when inputs are cleared"): when any
of `currencyA`, `currencyB`, `feeAmount` is absent and
`Boolean(formattedData?.length)` holds, `setFormattedData([])`. -/
def clearDataEffect (hasCurrencyA hasCurrencyB hasFeeAmount : Bool)
    (s : HookState) : HookState :=
  let hasFormatted : Bool := match s.formattedData with
    | some l => !l.isEmpty
    | none => false
  if (!hasCurrencyA || !hasCurrencyB || !hasFeeAmount) && hasFormatted then
    { s with formattedData := some [] }
  else s

/-- Decimal rendering of a nonnegative fraction part, left-padded with
zeros to `d` digits. -/
def padZeros (d : ℕ) (fp : ℕ) : String :=
  let s := natDecimalString fp
  String.mk (List.replicate (d - s.length) '0') ++ s

/-- `Number.prototype.toFixed` on a nonnegative value (ECMAScript: the
integer `n` with `n / 10^d - x` closest to zero, ties to the larger `n`,
i.e. `n = ⌊x * 10^d + 1/2⌋`), modelled on the rational value itself;
the floor is computed on numerator and denominator
(`⌊p/q + 1/2⌋ = (2*p + q).fdiv (2*q)` applied to `x * 10^d`) so that it
reduces inside the kernel. -/
def jsToFixedNonneg (x : ℚ) (d : ℕ) : String :=
  let n : ℕ := ((2 * x.num * 10 ^ d + x.den).fdiv (2 * x.den)).toNat
  if d = 0 then natDecimalString n
  else natDecimalString (n / 10 ^ d) ++ "." ++ padZeros d (n % 10 ^ d)

/-- `Number.prototype.toFixed`: a negative receiver renders as the sign
followed by `toFixed` of its negation. -/
def jsToFixed (x : ℚ) (d : ℕ) : String :=
  if x < 0 then "-" ++ jsToFixedNonneg (-x) d else jsToFixedNonneg x d

/-- One callback invocation made by the brush handler: which of the two
caller-supplied range inputs was called, and with what string. -/
inductive RangeCall where
  | left (s : String)
  | right (s : String)
deriving DecidableEq

/-- The `onBrushDomainChangeEnd` handler: reads the new domain
`[domain.x[0], domain.x[1]]`, and for each bound calls the matching range
input with `toFixed(PRICE_FIXED_DIGITS)` only when the bound is `> 0`.
`PRICE_FIXED_DIGITS` is imported from `hooks/usePoolTickData` (outside
this file), so the digit count is the parameter `d`.  The returned list
records the callback invocations in program order. -/
def onBrushDomainChangeEnd (d : ℕ) (domainX : ℚ × ℚ) : List RangeCall :=
  let leftRangeValue := domainX.1
  let rightRangeValue := domainX.2
  (if leftRangeValue > 0 then [RangeCall.left (jsToFixed leftRangeValue d)] else []) ++
  (if rightRangeValue > 0 then [RangeCall.right (jsToFixed rightRangeValue d)] else [])

/-- The data series handed to `VictoryBar`:
`formattedData ? formattedData : sampleData` (an empty array is truthy,
so a present-but-empty `formattedData` is still the formatted branch). -/
inductive BarSeries where
  | fromFormatted (entries : List ChartEntry)
  | fromSample (entries : List SampleEntry)
deriving DecidableEq

/-- The props of the chart branch that the claims are about: the brush
container's `allowDraw` / `allowDrag` / `allowResize`, the inner `Brush`'s
`allowDrag`, the brush domain, the `VictoryBar` series, and the
`VictoryLine` current-price marker (`none` when the `price &&` guard
omits the component altogether, otherwise its data points). -/
structure ChartProps where
  allowDraw : Bool
  allowDrag : Bool
  allowResize : Bool
  brushAllowDrag : Bool
  brushDomain : Option (ℚ × ℚ)
  barSeries : BarSeries
  priceLine : Option (List (ℚ × ℚ))
deriving DecidableEq

/-- The body rendered inside the `Wrapper` when not loading: either the
"No data" empty-state column or the `VictoryChart`. -/
inductive Body where
  | empty
  | chart (props : ChartProps)
deriving DecidableEq

/-- What `DensityChart` returns: the bare loading spinner, or the wrapper
content with an optional syncing corner indicator and a body. -/
inductive RenderOutput where
  | spinner
  | content (syncingIndicator : Bool) (body : Body)
deriving DecidableEq

/-- The inputs the render of `DensityChart` depends on: the hook results
(`loading`, `syncing`, `error`, plus the three state fields), the `price`
label prop, and the already-computed brush domain
(`[leftPrice.toSignificant(5), rightPrice.toSignificant(5)]` parsed,
present only when both prices are). -/
structure RenderInputs where
  loading : Bool
  syncing : Bool
  error : Bool
  formattedData : Option (List ChartEntry)
  priceAtActiveTick : Option ℚ
  maxLiquidity : ℚ
  price : Option String
  brushDomain : Option (ℚ × ℚ)
deriving DecidableEq

/-- The props of the `VictoryChart` branch as built in the JSX:
`Boolean(formattedData?.length)` gates dragging and resizing, `allowDraw`
is the literal `false`, the bar series falls back to `sampleData` when
`formattedData` is `undefined`, and the price marker exists only when the
`price` string is truthy, with data
`maxLiquidity && priceAtActiveTick ? [[p,0],[p,maxLiquidity]] : []`. -/
def chartPropsOf (i : RenderInputs) : ChartProps :=
  let hasData : Bool := match i.formattedData with
    | some l => !l.isEmpty
    | none => false
  let lineData : List (ℚ × ℚ) := match i.priceAtActiveTick with
    | some p => if i.maxLiquidity ≠ 0 ∧ p ≠ 0
        then [(p, 0), (p, i.maxLiquidity)] else []
    | none => []
  { allowDraw := false
    allowDrag := hasData
    allowResize := hasData
    brushAllowDrag := hasData
    brushDomain := i.brushDomain
    barSeries := match i.formattedData with
      | some l => BarSeries.fromFormatted l
      | none => BarSeries.fromSample sampleData
    priceLine := match i.price with
      | some ps => if ps = "" then none else some lineData
      | none => none }

/-- The render of `DensityChart`: an early spinner return while
`loading`; otherwise the wrapper with the syncing indicator iff
`syncing`, and the empty-state column exactly on
`formattedData && formattedData?.length === 0`, else the chart. -/
def DensityChart (i : RenderInputs) : RenderOutput :=
  if i.loading then RenderOutput.spinner
  else
    RenderOutput.content i.syncing
      (if i.formattedData = some [] then Body.empty
       else Body.chart (chartPropsOf i))

/-- Whether a render output is the empty-state "No data" message. -/
def showsEmptyMessage : RenderOutput → Bool
  | RenderOutput.content _ Body.empty => true
  | _ => false

/-- The JSBI maximum update of one loop iteration
(`JSBI.greaterThan(t.liquidityActive, maxLiquidity) ? t.liquidityActive
: maxLiquidity`). -/
def maxStep (acc : ℕ) (t : TickProcessed) : ℕ :=
  if t.liquidityActive > acc then t.liquidityActive else acc

/-! ### Concrete inputs used by the witnesses -/

/-- A concrete stand-in for the external `parseFloat` primitive, used by
the witnesses. -/
def pfW : String → ℚ := fun s => (s.length : ℚ)

/-- A concrete two-element tick array used by the witnesses. -/
def tdW : List TickProcessed :=
  [ { tickIdx := 5, liquidityActive := 10, price0 := "1.5", price1 := "0.66" }
  , { tickIdx := 6, liquidityActive := 7, price0 := "1.6", price1 := "0.62" } ]

/-- The initial hook state: both optional fields `undefined`,
`maxLiquidity` zero. -/
def hsW : HookState :=
  { formattedData := none, priceAtActiveTick := none, maxLiquidity := 0 }

/-- A concrete hook state holding one formatted entry. -/
def hsW2 : HookState :=
  { formattedData := some [ChartEntry.mk 0 false 1 1 1]
    priceAtActiveTick := none
    maxLiquidity := 0 }

/-- Concrete render inputs with a present, non-empty price label. -/
def iW : RenderInputs :=
  { loading := false, syncing := false, error := false
    formattedData := some []
    priceAtActiveTick := some 2, maxLiquidity := 1
    price := some "1.5", brushDomain := none }

/-- Concrete render inputs with one formatted entry. -/
def iW2 : RenderInputs :=
  { loading := false, syncing := false, error := false
    formattedData := some [ChartEntry.mk 0 false 1 1 1]
    priceAtActiveTick := none, maxLiquidity := 0
    price := none, brushDomain := none }

/-! ### Sanity checks for the `toFixed` model -/

lemma jsToFixed_sanity :
    jsToFixed 1 8 = "1.00000000" ∧ jsToFixed (mkRat 37 10) 2 = "3.70" ∧
    jsToFixed (mkRat 45 100) 1 = "0.5" ∧
    onBrushDomainChangeEnd 8 (0, 1) = [RangeCall.right "1.00000000"] := by
  decide

/-! ### Helper lemmas about the `formatData` loop -/

lemma formatDataLoop_length (pf : String → ℚ) (a : Option ℤ)
    (td : List TickProcessed) :
    ∀ (i m : ℕ) (p : Option ℚ),
      ((formatDataLoop pf a i td m p).1).length = td.length := by
  induction td with
  | nil => intro i m p; rfl
  | cons t rest ih =>
    intro i m p
    simp only [formatDataLoop, List.length_cons, ih]

lemma formatDataLoop_get (pf : String → ℚ) (a : Option ℤ)
    (td : List TickProcessed) :
    ∀ (i m : ℕ) (p : Option ℚ) (j : ℕ) (hj : j < td.length)
      (hl : j < ((formatDataLoop pf a i td m p).1).length),
      ((formatDataLoop pf a i td m p).1).get ⟨j, hl⟩ =
        { index := i + j
          isCurrent := decide (some (td.get ⟨j, hj⟩).tickIdx = a)
          activeLiquidity := pf (natDecimalString (td.get ⟨j, hj⟩).liquidityActive)
          price0 := pf (td.get ⟨j, hj⟩).price0
          price1 := pf (td.get ⟨j, hj⟩).price1 } := by
  induction td with
  | nil => intro i m p j hj hl; exact absurd hj (by simp)
  | cons t rest ih =>
    intro i m p j hj hl
    cases j with
    | zero => simp [formatDataLoop]
    | succ j' =>
      have hj' : j' < rest.length := by
        simpa [Nat.succ_lt_succ_iff] using hj
      have hl' : j' < ((formatDataLoop pf a (i + 1) rest
          (if t.liquidityActive > m then t.liquidityActive else m)
          (if decide (some t.tickIdx = a) then some (pf t.price0) else p)).1).length := by
        rw [formatDataLoop_length]; exact hj'
      have := ih (i + 1)
        (if t.liquidityActive > m then t.liquidityActive else m)
        (if decide (some t.tickIdx = a) then some (pf t.price0) else p) j' hj' hl'
      simpa [formatDataLoop, Nat.add_assoc, Nat.add_comm 1 j'] using this

lemma formatDataLoop_max (pf : String → ℚ) (a : Option ℤ)
    (td : List TickProcessed) :
    ∀ (i m : ℕ) (p : Option ℚ),
      (formatDataLoop pf a i td m p).2.1 = td.foldl maxStep m := by
  induction td with
  | nil => intro i m p; rfl
  | cons t rest ih =>
    intro i m p
    simp only [formatDataLoop, List.foldl_cons, maxStep, ih]

lemma foldl_maxStep_ge (td : List TickProcessed) :
    ∀ m : ℕ, m ≤ td.foldl maxStep m := by
  induction td with
  | nil => intro m; exact Nat.le_refl m
  | cons t rest ih =>
    intro m
    refine Nat.le_trans ?_ (ih (maxStep m t))
    simp only [maxStep]
    split
    · exact Nat.le_of_lt (by assumption)
    · exact Nat.le_refl m

lemma foldl_maxStep_le (td : List TickProcessed) :
    ∀ (m : ℕ) (t : TickProcessed), t ∈ td →
      t.liquidityActive ≤ td.foldl maxStep m := by
  induction td with
  | nil => intro m t ht; cases ht
  | cons u rest ih =>
    intro m t ht
    rcases List.mem_cons.mp ht with h | h
    · subst h
      refine Nat.le_trans ?_ (foldl_maxStep_ge rest (maxStep m t))
      simp only [maxStep]
      split
      · exact Nat.le_refl _
      · exact Nat.le_of_not_lt (by assumption)
    · exact ih (maxStep m u) t h

lemma foldl_maxStep_cases (td : List TickProcessed) :
    ∀ m : ℕ, td.foldl maxStep m = m ∨
      ∃ t ∈ td, td.foldl maxStep m = t.liquidityActive := by
  induction td with
  | nil => intro m; exact Or.inl rfl
  | cons u rest ih =>
    intro m
    rcases ih (maxStep m u) with h | ⟨t, ht, he⟩
    · rw [List.foldl_cons, h]
      by_cases hc : u.liquidityActive > m
      · exact Or.inr ⟨u, List.mem_cons_self u rest, by simp [maxStep, hc]⟩
      · exact Or.inl (by simp [maxStep, hc])
    · exact Or.inr ⟨t, List.mem_cons_of_mem u ht, by rw [List.foldl_cons]; exact he⟩

/-! ### Claims about the brush handler -/

/-- C1 (counterexample): at the domain `[0, 1]` the handler forwards only
the right bound; `onLeftRangeInput` is not invoked at all (the left bound
`0` fails the `> 0` guard), so the claim that every brush-domain-change
event invokes both callbacks is false. -/
theorem brushEnd_skips_left_at_zero :
    onBrushDomainChangeEnd 8 (0, 1) = [RangeCall.right "1.00000000"] ∧
    RangeCall.left (jsToFixed 0 8) ∉ onBrushDomainChangeEnd 8 (0, 1) := by
  decide

/-- C1 (amended): for every brush-domain-change-end event whose new
domain `[l, r]` has both bounds strictly positive, the handler invokes
`onLeftRangeInput` with `l` rendered by `toFixed(PRICE_FIXED_DIGITS)` and
then `onRightRangeInput` with `r` rendered the same way. -/
theorem brushEnd_positive_bounds_fixed_strings (d : ℕ) (l r : ℚ)
    (hl : 0 < l) (hr : 0 < r) :
    onBrushDomainChangeEnd d (l, r) =
      [RangeCall.left (jsToFixed l d), RangeCall.right (jsToFixed r d)] := by
  simp [onBrushDomainChangeEnd, hl, hr]

/-- Witness for `brushEnd_positive_bounds_fixed_strings` at
`d = 8`, `[l, r] = [1, 2]`. -/
theorem brushEnd_positive_bounds_fixed_strings_witness :
    onBrushDomainChangeEnd 8 (1, 2) =
      [RangeCall.left "1.00000000", RangeCall.right "2.00000000"] := by
  have h := brushEnd_positive_bounds_fixed_strings 8 1 2 (by decide) (by decide)
  rw [h]
  decide

/-- C5: a range callback fires if and only if its bound is strictly
positive: the left (resp. right) callback is invoked, with the fixed
rendering of the left (resp. right) bound, exactly when that bound is
`> 0`; and every invocation recorded for a side carries that side's
rendered bound, so a non-positive bound produces no callback for its side
while the other side is still forwarded. -/
theorem brushEnd_callback_iff_positive (d : ℕ) (l r : ℚ) :
    (RangeCall.left (jsToFixed l d) ∈ onBrushDomainChangeEnd d (l, r) ↔ 0 < l) ∧
    (RangeCall.right (jsToFixed r d) ∈ onBrushDomainChangeEnd d (l, r) ↔ 0 < r) ∧
    (∀ s, RangeCall.left s ∈ onBrushDomainChangeEnd d (l, r) →
      s = jsToFixed l d ∧ 0 < l) ∧
    (∀ s, RangeCall.right s ∈ onBrushDomainChangeEnd d (l, r) →
      s = jsToFixed r d ∧ 0 < r) := by
  by_cases hl : 0 < l <;> by_cases hr : 0 < r <;>
    simp [onBrushDomainChangeEnd, hl, hr]

/-- Witness for `brushEnd_callback_iff_positive` at `d = 8`, `l = 1`,
`r = -1`: the left callback fires, and the right side records no call. -/
theorem brushEnd_callback_iff_positive_witness :
    RangeCall.left (jsToFixed 1 8) ∈ onBrushDomainChangeEnd 8 (1, -1) ∧
    ¬ (RangeCall.right (jsToFixed (-1) 8) ∈ onBrushDomainChangeEnd 8 (1, -1)) := by
  refine ⟨(brushEnd_callback_iff_positive 8 1 (-1)).1.mpr (by decide), ?_⟩
  intro h
  exact absurd ((brushEnd_callback_iff_positive 8 1 (-1)).2.1.mp h) (by decide)

/-! ### Claims about `formatData` -/

/-- C2: for every non-empty `tickData`, `formatData` stores a chart
series with exactly one entry per tick record, in the same order: entry
`j` has `index = j`, `isCurrent` true exactly when that tick's `tickIdx`
equals `activeTick`, `activeLiquidity` the float parse of the tick's
`liquidityActive` decimal string, and `price0` / `price1` the float
parses of the tick's price strings. -/
theorem formatData_one_entry_per_tick (pf : String → ℚ) (a : Option ℤ)
    (td : List TickProcessed) (s : HookState) (hne : td ≠ []) :
    ∃ l, (formatData pf a (some td) s).formattedData = some l ∧
      l.length = td.length ∧
      ∀ (j : ℕ) (hj : j < td.length) (hl : j < l.length),
        (l.get ⟨j, hl⟩).index = j ∧
        ((l.get ⟨j, hl⟩).isCurrent = true ↔ some (td.get ⟨j, hj⟩).tickIdx = a) ∧
        (l.get ⟨j, hl⟩).activeLiquidity =
          pf (natDecimalString (td.get ⟨j, hj⟩).liquidityActive) ∧
        (l.get ⟨j, hl⟩).price0 = pf (td.get ⟨j, hj⟩).price0 ∧
        (l.get ⟨j, hl⟩).price1 = pf (td.get ⟨j, hj⟩).price1 := by
  refine ⟨(formatDataLoop pf a 0 td 0 s.priceAtActiveTick).1, ?_, ?_, ?_⟩
  · simp [formatData, hne]
  · exact formatDataLoop_length pf a td 0 0 s.priceAtActiveTick
  · intro j hj hl
    rw [formatDataLoop_get pf a td 0 0 s.priceAtActiveTick j hj hl]
    exact ⟨Nat.zero_add j, by simp, rfl, rfl, rfl⟩

/-- Witness for `formatData_one_entry_per_tick` at the concrete inputs
`pfW`, `activeTick = 5`, `tdW`, `hsW`. -/
theorem formatData_one_entry_per_tick_witness :
    ∃ l, (formatData pfW (some 5) (some tdW) hsW).formattedData = some l ∧
      l.length = tdW.length ∧
      ∀ (j : ℕ) (hj : j < tdW.length) (hl : j < l.length),
        (l.get ⟨j, hl⟩).index = j ∧
        ((l.get ⟨j, hl⟩).isCurrent = true ↔ some (tdW.get ⟨j, hj⟩).tickIdx = some 5) ∧
        (l.get ⟨j, hl⟩).activeLiquidity =
          pfW (natDecimalString (tdW.get ⟨j, hj⟩).liquidityActive) ∧
        (l.get ⟨j, hl⟩).price0 = pfW (tdW.get ⟨j, hj⟩).price0 ∧
        (l.get ⟨j, hl⟩).price1 = pfW (tdW.get ⟨j, hj⟩).price1 :=
  formatData_one_entry_per_tick pfW (some 5) tdW hsW (by decide)

/-- C10: `formatData` is deterministic: two runs over equal `tickData`
arrays and equal `activeTick` values, from the same previous state,
produce equal `formattedData`, `maxLiquidity` and `priceAtActiveTick`
updates (the computation reads nothing but its inputs). -/
theorem formatData_deterministic (pf : String → ℚ) (a1 a2 : Option ℤ)
    (td1 td2 : Option (List TickProcessed)) (s : HookState)
    (ha : a1 = a2) (htd : td1 = td2) :
    (formatData pf a1 td1 s).formattedData = (formatData pf a2 td2 s).formattedData ∧
    (formatData pf a1 td1 s).maxLiquidity = (formatData pf a2 td2 s).maxLiquidity ∧
    (formatData pf a1 td1 s).priceAtActiveTick =
      (formatData pf a2 td2 s).priceAtActiveTick := by
  subst ha
  subst htd
  exact ⟨rfl, rfl, rfl⟩

/-- Witness for `formatData_deterministic` at the concrete inputs `pfW`,
`activeTick = 5`, `tdW`, `hsW`. -/
theorem formatData_deterministic_witness :
    (formatData pfW (some 5) (some tdW) hsW).formattedData =
      (formatData pfW (some 5) (some tdW) hsW).formattedData ∧
    (formatData pfW (some 5) (some tdW) hsW).maxLiquidity =
      (formatData pfW (some 5) (some tdW) hsW).maxLiquidity ∧
    (formatData pfW (some 5) (some tdW) hsW).priceAtActiveTick =
      (formatData pfW (some 5) (some tdW) hsW).priceAtActiveTick :=
  formatData_deterministic pfW (some 5) (some 5) (some tdW) (some tdW) hsW rfl rfl

/-- C9 (counterexample): with a rendered chart, non-zero `maxLiquidity`
(`1`) and non-zero `priceAtActiveTick` (`2`) but no `price` label prop,
the `price &&` guard omits the `VictoryLine` entirely, so no marker line
spans `[p, 0]`–`[p, maxLiquidity]` although both values are non-zero. -/
theorem priceMarker_absent_without_price_label :
    (chartPropsOf
      (RenderInputs.mk false false false (some [ChartEntry.mk 0 true 1 2 2])
        (some 2) 1 none none)).priceLine = none ∧
    DensityChart
        (RenderInputs.mk false false false (some [ChartEntry.mk 0 true 1 2 2])
          (some 2) 1 none none) =
      RenderOutput.content false
        (Body.chart (chartPropsOf
          (RenderInputs.mk false false false (some [ChartEntry.mk 0 true 1 2 2])
            (some 2) 1 none none))) ∧
    (1 : ℚ) ≠ 0 ∧ (2 : ℚ) ≠ 0 := by
  decide

/-- C9 (amended): after a formatting pass over a non-empty `tickData`,
`maxLiquidity` is the float parse of the maximum `liquidityActive`
(compared as big integers) over all ticks; and when the maximum and
`priceAtActiveTick` are both non-zero and a non-empty `price` label is
supplied, the current-price marker line spans from `y = 0` to
`y = maxLiquidity` at `x = priceAtActiveTick`. -/
theorem maxLiquidity_max_and_priceMarker (pf : String → ℚ) (a : Option ℤ)
    (td : List TickProcessed) (s : HookState) (hne : td ≠ []) :
    (∃ t ∈ td, (∀ u ∈ td, u.liquidityActive ≤ t.liquidityActive) ∧
      (formatData pf a (some td) s).maxLiquidity =
        pf (natDecimalString t.liquidityActive)) ∧
    (∀ (i : RenderInputs) (ps : String) (p : ℚ),
      i.price = some ps → ps ≠ "" → i.maxLiquidity ≠ 0 →
      i.priceAtActiveTick = some p → p ≠ 0 →
      (chartPropsOf i).priceLine = some [(p, 0), (p, i.maxLiquidity)]) := by
  constructor
  · have hmax : (formatData pf a (some td) s).maxLiquidity =
        pf (natDecimalString (td.foldl maxStep 0)) := by
      simp [formatData, hne, formatDataLoop_max]
    rcases foldl_maxStep_cases td 0 with h0 | ⟨t, ht, he⟩
    · obtain ⟨t, ht⟩ := List.exists_mem_of_ne_nil td hne
      have ht0 : t.liquidityActive = 0 :=
        Nat.le_zero.mp (h0 ▸ foldl_maxStep_le td 0 t ht)
      refine ⟨t, ht, ?_, ?_⟩
      · intro u hu
        rw [ht0]
        exact Nat.le_zero.mp (h0 ▸ foldl_maxStep_le td 0 u hu) ▸ Nat.le_refl 0
      · rw [hmax, h0, ht0]
    · refine ⟨t, ht, ?_, ?_⟩
      · intro u hu
        rw [← he]
        exact foldl_maxStep_le td 0 u hu
      · rw [hmax, he]
  · intro i ps p hips hpe hm0 hpat hp0
    simp only [chartPropsOf, hips, hpat]
    rw [if_neg hpe, if_pos ⟨hm0, hp0⟩]

/-- Witness for `maxLiquidity_max_and_priceMarker`: the maximum over
`tdW` is realised, and at `iW` (label `"1.5"`, `maxLiquidity = 1`,
`priceAtActiveTick = 2`) the marker line is `[(2, 0), (2, 1)]`. -/
theorem maxLiquidity_max_and_priceMarker_witness :
    (∃ t ∈ tdW, (∀ u ∈ tdW, u.liquidityActive ≤ t.liquidityActive) ∧
      (formatData pfW (some 5) (some tdW) hsW).maxLiquidity =
        pfW (natDecimalString t.liquidityActive)) ∧
    (chartPropsOf iW).priceLine = some [(2, 0), (2, 1)] := by
  have h := maxLiquidity_max_and_priceMarker pfW (some 5) tdW hsW (by decide)
  refine ⟨h.1, ?_⟩
  have h2 := h.2 iW "1.5" 2 rfl (by decide) (by decide) rfl (by decide)
  simpa [iW] using h2

/-! ### Claims about the render -/

/-- C3 (counterexample): while `loading` is true and `formattedData` is a
defined empty array, the component renders the spinner, not the
empty-state message, so the message is not rendered "exactly when
`formattedData` is defined and has length 0". -/
theorem emptyMessage_needs_not_loading_cex :
    (RenderInputs.mk true false false (some []) none 0 none none).formattedData =
      some [] ∧
    DensityChart (RenderInputs.mk true false false (some []) none 0 none none) =
      RenderOutput.spinner ∧
    showsEmptyMessage
      (DensityChart (RenderInputs.mk true false false (some []) none 0 none none)) =
      false := by
  decide

/-- C3 (amended): the `error` flag returned by the hook never changes
what is rendered; the spinner is rendered exactly while `loading` is
true; the empty-state message is rendered exactly when `loading` is false
and `formattedData` is a defined empty array; and every non-loading
render is the wrapper content carrying the syncing indicator iff
`syncing`. -/
theorem render_error_flag_irrelevant :
    (∀ (ld sy e1 e2 : Bool) (fd : Option (List ChartEntry)) (p : Option ℚ)
        (m : ℚ) (pr : Option String) (bd : Option (ℚ × ℚ)),
      DensityChart (RenderInputs.mk ld sy e1 fd p m pr bd) =
        DensityChart (RenderInputs.mk ld sy e2 fd p m pr bd)) ∧
    (∀ i : RenderInputs, DensityChart i = RenderOutput.spinner ↔ i.loading = true) ∧
    (∀ i : RenderInputs,
      showsEmptyMessage (DensityChart i) = true ↔
        (i.loading = false ∧ i.formattedData = some [])) ∧
    (∀ i : RenderInputs, i.loading = false →
      DensityChart i = RenderOutput.content i.syncing
        (if i.formattedData = some [] then Body.empty
         else Body.chart (chartPropsOf i))) := by
  refine ⟨fun ld sy e1 e2 fd p m pr bd => rfl, ?_, ?_, ?_⟩
  · intro i
    cases hld : i.loading <;> simp [DensityChart, hld]
  · intro i
    cases hld : i.loading <;>
      by_cases hfd : i.formattedData = some [] <;>
      simp [DensityChart, showsEmptyMessage, hld, hfd]
  · intro i h
    simp [DensityChart, h]

/-- Witness for `render_error_flag_irrelevant`: flipping the error flag
at a concrete non-loading input changes nothing, and the empty-state
message shows at `loading = false`, `formattedData = some []`. -/
theorem render_error_flag_irrelevant_witness :
    DensityChart (RenderInputs.mk false false true (some []) none 0 none none) =
      DensityChart (RenderInputs.mk false false false (some []) none 0 none none) ∧
    showsEmptyMessage
      (DensityChart (RenderInputs.mk false false false (some []) none 0 none none)) =
      true :=
  ⟨render_error_flag_irrelevant.1 false false true false (some []) none 0 none none,
   (render_error_flag_irrelevant.2.2.1
     (RenderInputs.mk false false false (some []) none 0 none none)).mpr ⟨rfl, rfl⟩⟩

/-- C4: when `loading` is false and `formattedData` is `undefined`, the
chart is rendered with the hard-coded 7-point `sampleData` series and the
empty-state message is not shown; the empty-state message requires
`formattedData` to be a defined empty array. -/
theorem sampleData_fallback_render :
    (∀ (sy e : Bool) (p : Option ℚ) (m : ℚ) (pr : Option String)
        (bd : Option (ℚ × ℚ)),
      DensityChart (RenderInputs.mk false sy e none p m pr bd) =
        RenderOutput.content sy
          (Body.chart (chartPropsOf (RenderInputs.mk false sy e none p m pr bd))) ∧
      (chartPropsOf (RenderInputs.mk false sy e none p m pr bd)).barSeries =
        BarSeries.fromSample sampleData ∧
      showsEmptyMessage
        (DensityChart (RenderInputs.mk false sy e none p m pr bd)) = false) ∧
    sampleData.length = 7 ∧
    (∀ i : RenderInputs, showsEmptyMessage (DensityChart i) = true →
      i.formattedData = some []) := by
  refine ⟨?_, rfl, ?_⟩
  · intro sy e p m pr bd
    exact ⟨rfl, rfl, rfl⟩
  · intro i h
    cases hld : i.loading <;> by_cases hfd : i.formattedData = some [] <;>
      simp_all [DensityChart, showsEmptyMessage]

/-- Witness for `sampleData_fallback_render`: at a concrete render input
showing the empty-state message, `formattedData` is the defined empty
array. -/
theorem sampleData_fallback_render_witness :
    (RenderInputs.mk false false false (some ([] : List ChartEntry)) none 0
      none none).formattedData = some [] :=
  sampleData_fallback_render.2.2
    (RenderInputs.mk false false false (some []) none 0 none none) rfl

/-- C6: while `loading` is true the effect skips `formatData`, leaving
`formattedData`, `priceAtActiveTick` and `maxLiquidity` unchanged, and
the component renders only the loading spinner (in particular not the
empty-state message). -/
theorem loading_skips_format_renders_spinner (pf : String → ℚ) (a : Option ℤ)
    (td : Option (List TickProcessed)) (s : HookState) (sy e : Bool)
    (fd : Option (List ChartEntry)) (p : Option ℚ) (m : ℚ)
    (pr : Option String) (bd : Option (ℚ × ℚ)) :
    tickDataEffect true pf a td s = s ∧
    (tickDataEffect true pf a td s).formattedData = s.formattedData ∧
    (tickDataEffect true pf a td s).priceAtActiveTick = s.priceAtActiveTick ∧
    (tickDataEffect true pf a td s).maxLiquidity = s.maxLiquidity ∧
    DensityChart (RenderInputs.mk true sy e fd p m pr bd) = RenderOutput.spinner ∧
    showsEmptyMessage (DensityChart (RenderInputs.mk true sy e fd p m pr bd)) =
      false :=
  ⟨rfl, rfl, rfl, rfl, rfl, rfl⟩

/-- C7: on the rendered chart, `allowDraw` is always false, and
`allowDrag`, `allowResize` (brush container) and the inner `Brush`'s
`allowDrag` all equal the truth of `formattedData` being a defined
non-empty array; the chart with these props is what renders whenever
`loading` is false and `formattedData` is not a defined empty array. -/
theorem brush_interactivity_iff_nonempty (i : RenderInputs) :
    (chartPropsOf i).allowDraw = false ∧
    ((chartPropsOf i).allowDrag = true ↔
      ∃ l, i.formattedData = some l ∧ l ≠ []) ∧
    (chartPropsOf i).allowResize = (chartPropsOf i).allowDrag ∧
    (chartPropsOf i).brushAllowDrag = (chartPropsOf i).allowDrag ∧
    (i.loading = false → i.formattedData ≠ some [] →
      DensityChart i = RenderOutput.content i.syncing
        (Body.chart (chartPropsOf i))) := by
  refine ⟨rfl, ?_, rfl, rfl, ?_⟩
  · cases hfd : i.formattedData with
    | none => simp [chartPropsOf, hfd]
    | some l => simp [chartPropsOf, hfd]
  · intro h1 h2
    simp [DensityChart, h1, h2]

/-- Witness for `brush_interactivity_iff_nonempty` at `iW2` (one
formatted entry): dragging is enabled and drawing is disabled. -/
theorem brush_interactivity_iff_nonempty_witness :
    (chartPropsOf iW2).allowDrag = true ∧ (chartPropsOf iW2).allowDraw = false :=
  ⟨(brush_interactivity_iff_nonempty iW2).2.1.mpr
      ⟨[ChartEntry.mk 0 false 1 1 1], rfl, by decide⟩,
   (brush_interactivity_iff_nonempty iW2).1⟩

/-- C8: when any of `currencyA`, `currencyB`, `feeAmount` is absent while
`formattedData` is a defined non-empty array, the clearing effect resets
`formattedData` to the (defined) empty array — under which the non-loading
render shows the empty-state message — and when `formattedData` is
already empty or `undefined` the effect changes nothing. -/
theorem clearDataEffect_resets (a b f : Bool) (s : HookState)
    (l : List ChartEntry)
    (hmiss : a = false ∨ b = false ∨ f = false)
    (hfd : s.formattedData = some l) (hne : l ≠ []) :
    clearDataEffect a b f s = { s with formattedData := some [] } ∧
    (∀ (a2 b2 f2 : Bool) (s2 : HookState),
      (s2.formattedData = some [] ∨ s2.formattedData = none) →
      clearDataEffect a2 b2 f2 s2 = s2) ∧
    (∀ (sy e : Bool) (p : Option ℚ) (m : ℚ) (pr : Option String)
        (bd : Option (ℚ × ℚ)),
      showsEmptyMessage
        (DensityChart (RenderInputs.mk false sy e (some []) p m pr bd)) =
        true) := by
  refine ⟨?_, ?_, fun sy e p m pr bd => rfl⟩
  · have h1 : (!a || !b || !f) = true := by
      rcases hmiss with h | h | h <;> simp [h]
    simp [clearDataEffect, h1, hfd, hne]
  · intro a2 b2 f2 s2 h
    rcases h with h | h <;> simp [clearDataEffect, h]

/-- Witness for `clearDataEffect_resets`: clearing `currencyA` while
`hsW2` holds one formatted entry resets `formattedData` to `[]`. -/
theorem clearDataEffect_resets_witness :
    clearDataEffect false true true hsW2 = { hsW2 with formattedData := some [] } :=
  (clearDataEffect_resets false true true hsW2 [ChartEntry.mk 0 false 1 1 1]
    (Or.inl rfl) rfl (by decide)).1
